import Mathlib

/-!
Verification development for the sandbox subsystem of the sheets-qa
repository: an outer controller (`sandbox.py`) that supervises a child
process, and a restriction engine (`child_runner.py`) that locks the
child down before executing an untrusted script.

The Python sources are embedded shallowly: pure dispatch logic becomes
Lean functions, module/attribute tables become finite association lists,
and the exception machinery becomes an explicit class hierarchy mirroring
CPython's documented builtin-exception tree.
-/

namespace Sandbox

/-- The builtin exception classes of CPython that the sandbox code can
raise, catch or re-raise, mirroring the documented builtin hierarchy
(for example `PermissionError < OSError < Exception < BaseException`,
and `SystemExit < BaseException` only). -/
inductive PyClass where
  | baseException
  | exception
  | stopIteration
  | arithmeticError
  | lookupError
  | memoryError
  | osError
  | timeoutError
  | systemExit
  | importError
  | permissionError
  | runtimeError
  deriving DecidableEq, BEq

/-- The chain of ancestors (the class itself first) of each exception
class, transcribed from CPython's documented builtin-exception tree. -/
def PyClass.ancestors : PyClass → List PyClass
  | .baseException => [.baseException]
  | .exception => [.exception, .baseException]
  | .stopIteration => [.stopIteration, .exception, .baseException]
  | .arithmeticError => [.arithmeticError, .exception, .baseException]
  | .lookupError => [.lookupError, .exception, .baseException]
  | .memoryError => [.memoryError, .exception, .baseException]
  | .osError => [.osError, .exception, .baseException]
  | .timeoutError => [.timeoutError, .osError, .exception, .baseException]
  | .systemExit => [.systemExit, .baseException]
  | .importError => [.importError, .exception, .baseException]
  | .permissionError => [.permissionError, .osError, .exception, .baseException]
  | .runtimeError => [.runtimeError, .exception, .baseException]

/-- Whether `a` is `b` or a (transitive) subclass of `b`; an
`except b:` clause catches an instance of `a` exactly when this holds. -/
def subclassOf (a b : PyClass) : Bool := (PyClass.ancestors a).contains b

/-- The printable name of each exception class, as `repr` shows it. -/
def pyClassName : PyClass → String
  | .baseException => "BaseException"
  | .exception => "Exception"
  | .stopIteration => "StopIteration"
  | .arithmeticError => "ArithmeticError"
  | .lookupError => "LookupError"
  | .memoryError => "MemoryError"
  | .osError => "OSError"
  | .timeoutError => "TimeoutError"
  | .systemExit => "SystemExit"
  | .importError => "ImportError"
  | .permissionError => "PermissionError"
  | .runtimeError => "RuntimeError"

/-- An exception value: its class, its message, and (for `SystemExit`)
the exit code it carries. -/
structure PyExcVal where
  cls : PyClass
  msg : String
  code : Nat := 0
  deriving DecidableEq

/-- CPython's `repr` of a one-argument string: double quotes are chosen
when the text contains a single quote and no double quote. -/
def pyStrRepr (s : String) : String :=
  if s.data.contains '\'' && !(s.data.contains '"') then
    "\"" ++ s ++ "\""
  else
    "'" ++ s ++ "'"

/-- CPython's `repr` of a one-argument exception instance. -/
def pyRepr (e : PyExcVal) : String :=
  pyClassName e.cls ++ "(" ++ pyStrRepr e.msg ++ ")"

/-- How the untrusted script's execution inside `run_target` ends:
natural completion, or an exception propagating out of `exec`. -/
inductive ScriptOutcome where
  | completes
  | raises (e : PyExcVal)
  deriving DecidableEq

/-- The outcome classification of `child_runner.main`: the `except`
chain around `run_target`, in source order (`MemoryError`, then
`TimeoutError`, then `SystemExit` re-raised, then `BaseException`),
mapped to the process exit code and the diagnostic line written to
standard error (`none` when no diagnostic is written). -/
def runnerExit : ScriptOutcome → Nat × Option String
  | .completes => (0, none)
  | .raises e =>
    if subclassOf e.cls .memoryError then
      (137, some "child: killed (memory limit reached)")
    else if subclassOf e.cls .timeoutError then
      (124, some "child: killed (timeout)")
    else if subclassOf e.cls .systemExit then
      (e.code, none)
    else
      (1, some ("child: runtime error: " ++ pyRepr e))

/-- The exception `alarm_handler` raises when the wall-clock alarm
signal fires. -/
def alarm_handler_exc : PyExcVal :=
  { cls := .timeoutError, msg := "child: wall timeout reached" }

/-- The import allow-list `ALLOWED_MODULES` of `child_runner.py`. -/
def ALLOWED_MODULES : List String :=
  ["math", "json", "re", "itertools", "functools", "random", "statistics",
   "string", "collections", "heapq", "bisect", "datetime",
   "pandas", "numpy", "matplotlib", "openai"]

/-- The root of a dotted module name: `name.split(".")[0]`, i.e. the
characters before the first dot. -/
def rootName (name : String) : String := ⟨name.data.takeWhile (· ≠ '.')⟩

/-- A module object as produced by genuine module loading (the real
builtin `__import__` applied to an allowed name). -/
inductive LoadedModule where
  | genuine (name : String)
  deriving DecidableEq

/-- The import substitute `restricted_import` installed as
`__import__`: delegate to genuine loading when the root name is in
`ALLOWED_MODULES`, otherwise raise `ImportError`. -/
def restricted_import (name : String) : Except PyExcVal LoadedModule :=
  if ALLOWED_MODULES.contains (rootName name) then
    .ok (.genuine name)
  else
    .error { cls := .importError,
             msg := "import of '" ++ name ++ "' not allowed in sandbox" }

/-- The exception raised by the file-open substitute `blocked_open`. -/
def blocked_open : Except PyExcVal Unit :=
  .error { cls := .permissionError, msg := "file IO is disabled in sandbox" }

/-- The names bound in the restricted builtins dictionary built by
`make_safe_builtins`: its `allowed` list (all of which exist in the
real builtins) plus the two substitutes `open` and `__import__`. -/
def safeBuiltinNames : List String :=
  ["abs", "all", "any", "ascii", "bin", "bool", "bytearray", "bytes",
   "chr", "complex", "dict", "divmod", "enumerate", "filter", "float",
   "format", "frozenset", "hash", "hex", "id", "int", "isinstance",
   "issubclass", "iter", "len", "list", "map", "max", "min", "next",
   "object", "oct", "ord", "pow", "print", "range", "repr", "reversed",
   "round", "set", "slice", "sorted", "str", "sum", "tuple", "zip",
   "BaseException", "Exception", "StopIteration", "ArithmeticError",
   "LookupError", "open", "__import__"]

/-- A `try: ... except cls: pass`-style handler in the untrusted
script: the error is swallowed exactly when its class is a subclass of
the class the handler names. -/
def handleCatching (cls : PyClass) (r : Except PyExcVal Unit) :
    Except PyExcVal Unit :=
  match r with
  | .ok _ => .ok ()
  | .error e => if subclassOf e.cls cls then .ok () else .error e

/-- The script outcome corresponding to the result of running the
script's top-level statements. -/
def scriptOutcomeOf (r : Except PyExcVal Unit) : ScriptOutcome :=
  match r with
  | .ok _ => .completes
  | .error e => .raises e

/-! ### Network neutralization (`disable_networking`)

The substitute modules are modelled as finite attribute maps. The
original `socket` and `ssl` modules are transcribed from CPython's
documented public API, each attribute tagged with what it is there
(a constant, a class, or a function). -/

/-- What an attribute of a networking module is in the original
CPython module: a module-level constant, a class, or a function. -/
inductive AttrKind where
  | const
  | cls
  | fn
  deriving DecidableEq, BEq

/-- A value reachable through a substituted module's attribute: either
the original module's attribute (copied unchanged), or one of the
replacement callables installed by `disable_networking`. -/
inductive PyVal where
  | orig (module : String) (attr : String)
  | raiseNetDisabled
  | raiseSslDisabled
  | sslDefaultContextStub
  deriving DecidableEq

/-- Calling a value reachable through a substituted module: the
replacement `_raise` fails with the networking-disabled error, the
replacement `wrap_socket` lambda fails with the ssl-disabled error,
and everything copied from the original (and the context stub)
behaves as a genuine callable. -/
def invoke : PyVal → Except PyExcVal Unit
  | .raiseNetDisabled =>
    .error { cls := .runtimeError, msg := "networking disabled in sandbox" }
  | .raiseSslDisabled =>
    .error { cls := .runtimeError, msg := "ssl disabled" }
  | .sslDefaultContextStub => .ok ()
  | .orig _ _ => .ok ()

/-- The public attributes of CPython's `socket` module with their
kinds, transcribed from its documentation. -/
def realSocketAttrs : List (String × AttrKind) :=
  [("AF_INET", .const), ("AF_INET6", .const), ("AF_UNIX", .const),
   ("SOCK_STREAM", .const), ("SOCK_DGRAM", .const), ("SOCK_RAW", .const),
   ("SOCK_SEQPACKET", .const), ("SOL_SOCKET", .const),
   ("SO_REUSEADDR", .const), ("IPPROTO_TCP", .const),
   ("IPPROTO_UDP", .const), ("IPPROTO_IP", .const), ("SHUT_RD", .const),
   ("SHUT_WR", .const), ("SHUT_RDWR", .const), ("has_ipv6", .const),
   ("socket", .cls), ("AddressFamily", .cls), ("SocketKind", .cls),
   ("error", .cls), ("gaierror", .cls), ("herror", .cls),
   ("timeout", .cls),
   ("create_connection", .fn), ("create_server", .fn),
   ("socketpair", .fn), ("fromfd", .fn), ("dup", .fn),
   ("getaddrinfo", .fn), ("gethostbyname", .fn),
   ("gethostbyname_ex", .fn), ("gethostbyaddr", .fn),
   ("gethostname", .fn), ("getnameinfo", .fn), ("getfqdn", .fn),
   ("getservbyname", .fn), ("getservbyport", .fn),
   ("getprotobyname", .fn), ("ntohs", .fn), ("ntohl", .fn),
   ("htons", .fn), ("htonl", .fn), ("inet_aton", .fn),
   ("inet_ntoa", .fn), ("inet_pton", .fn), ("inet_ntop", .fn),
   ("getdefaulttimeout", .fn), ("setdefaulttimeout", .fn),
   ("if_nametoindex", .fn), ("if_indextoname", .fn),
   ("if_nameindex", .fn)]

/-- The attribute names of the original `socket` module. -/
def realSocketAttrNames : List String := realSocketAttrs.map Prod.fst

/-- The fixed list of `socket`-module names that `disable_networking`
overwrites with `_raise`, in source order. -/
def blockedSocketFuncs : List String :=
  ["socket", "create_connection", "getaddrinfo", "gethostbyname",
   "gethostbyaddr", "getnameinfo"]

/-- Attribute lookup on the substitute `socket` module installed in
`sys.modules`: every attribute of the original is first copied, then
the six names in `blockedSocketFuncs` are overwritten with `_raise`. -/
def fakeSocketLookup (a : String) : Option PyVal :=
  if realSocketAttrNames.contains a then
    if blockedSocketFuncs.contains a then some .raiseNetDisabled
    else some (.orig "socket" a)
  else none

/-- The public attributes of CPython's `ssl` module with their kinds,
transcribed from its documentation (for the interpreter versions this
repository targets, where `ssl.wrap_socket` still exists). -/
def realSslAttrs : List (String × AttrKind) :=
  [("PROTOCOL_TLS", .const), ("PROTOCOL_TLS_CLIENT", .const),
   ("PROTOCOL_TLS_SERVER", .const), ("CERT_NONE", .const),
   ("CERT_OPTIONAL", .const), ("CERT_REQUIRED", .const),
   ("HAS_SNI", .const), ("HAS_ALPN", .const),
   ("OPENSSL_VERSION", .const),
   ("SSLContext", .cls), ("SSLSocket", .cls), ("SSLObject", .cls),
   ("SSLError", .cls), ("SSLZeroReturnError", .cls),
   ("SSLWantReadError", .cls), ("SSLWantWriteError", .cls),
   ("SSLSyscallError", .cls), ("SSLEOFError", .cls),
   ("CertificateError", .cls),
   ("wrap_socket", .fn), ("create_default_context", .fn),
   ("get_default_verify_paths", .fn), ("cert_time_to_seconds", .fn),
   ("DER_cert_to_PEM_cert", .fn), ("PEM_cert_to_DER_cert", .fn),
   ("RAND_bytes", .fn), ("RAND_status", .fn)]

/-- The attribute names of the original `ssl` module. -/
def realSslAttrNames : List String := realSslAttrs.map Prod.fst

/-- Attribute lookup on the substitute `ssl` module: every attribute
of the original is copied, then `wrap_socket` is overwritten with a
raising lambda and `create_default_context` with a stub returning a
fresh TLS-client context. -/
def fakeSslLookup (a : String) : Option PyVal :=
  if a = "wrap_socket" then some .raiseSslDisabled
  else if a = "create_default_context" then some .sslDefaultContextStub
  else if realSslAttrNames.contains a then some (.orig "ssl" a)
  else none

/-- Modelled from the spec's words: the operations of the `socket`
module "that would open a connection, resolve a name, or establish a
socket". Calling the `socket` class establishes a socket;
`create_connection` and `create_server` open or establish connections;
`socketpair` and `fromfd` establish socket objects; the `get*` entries
resolve names or addresses. -/
def specSocketNetOps : List String :=
  ["socket", "create_connection", "create_server", "socketpair",
   "fromfd", "getaddrinfo", "gethostbyname", "gethostbyname_ex",
   "gethostbyaddr", "getnameinfo", "getfqdn"]

/-! ### Dataset injection (`sandbox.py` workspace preparation and
`run_target`'s `injected_dfs.json` load) -/

/-- A named table of the injected dataset: column headers plus row
values, as serialized by `prepare_injection.py` with
`to_dict(orient="split")` and rebuilt by `run_target` with
`pd.DataFrame(data["data"], columns=data["columns"])`. -/
structure Table where
  columns : List String
  data : List (List String)
  deriving DecidableEq

/-- A file placed in the ephemeral workspace: the target script's
source text, a parseable serialized dataset, or anything else. -/
inductive FileContent where
  | script (src : String)
  | dataset (tables : List (String × Table))
  | other
  deriving DecidableEq

/-- Name-based lookup of a file in a directory listing. -/
def lookupFile (files : List (String × FileContent)) (name : String) :
    Option FileContent :=
  files.lookup name

/-- The workspace produced by the controller: the target script is
copied under its own name, and the injection file, when given, is
copied under the fixed destination name `injected_dfs.pkl`
(`inject_dest = tmpdir / "injected_dfs.pkl"`). -/
def controllerPrepare (targetName : String) (src : String)
    (inject : Option FileContent) : List (String × FileContent) :=
  (targetName, FileContent.script src) ::
    (match inject with
     | some c => [("injected_dfs.pkl", c)]
     | none => [])

/-- The fixed file name `run_target` looks for next to the target
script: `inject_path = os.path.join(os.path.dirname(target_path),
"injected_dfs.json")`. -/
def ENGINE_INJECT_NAME : String := "injected_dfs.json"

/-- The dataset loaded by `run_target`: the file
`injected_dfs.json` next to the script, parsed into (name, DataFrame)
pairs; a missing or unparseable file yields `none` and the run
proceeds without injection. -/
def loadInjectedDfs (files : List (String × FileContent)) :
    Option (List (String × Table)) :=
  match lookupFile files ENGINE_INJECT_NAME with
  | some (.dataset d) => some d
  | _ => none

/-- Whether the restricted globals passed to the script contain the
binding `dfs` (it is added exactly when `injected_dfs` is not `None`). -/
def restrictedGlobalsHasDfs (files : List (String × FileContent)) : Bool :=
  (loadInjectedDfs files).isSome

/-! ### Controller supervision, exit codes and cleanup (`sandbox.py`) -/

/-- How the spawned child behaves under the controller's supervision
window: completion with a return code (`none` models a `returncode` of
`None`), exceeding the window (`subprocess.TimeoutExpired`), or an
exception inside the controller's own `try` block. -/
inductive ChildBehavior where
  | completed (rc : Option Nat)
  | timedOut
  | controllerCrash (msg : String)
  deriving DecidableEq

/-- The ways the controller's `try` block stops: `sys.exit` (which
raises `SystemExit` carrying the exit code through the `finally`), or
a propagating exception. -/
inductive CtrlErr where
  | sysExit (c : Nat)
  | pyExc (msg : String)
  deriving DecidableEq

/-- The observable state the controller's cleanup is about. -/
structure CState where
  workspaceExists : Bool
  childKilled : Bool
  deriving DecidableEq

/-- The `try` block of `sandbox.py` after the workspace is created:
on `TimeoutExpired` the child has been killed, the workspace is
removed and `sys.exit(124)` is raised; on completion the streams are
relayed and `sys.exit(proc.returncode if proc.returncode is not None
else 0)` is raised; any other exception propagates unchanged. -/
def controllerBody : ChildBehavior → CState → Except CtrlErr Unit × CState
  | .completed rc, s => (.error (.sysExit (rc.getD 0)), s)
  | .timedOut, s =>
    (.error (.sysExit 124), { s with workspaceExists := false, childKilled := true })
  | .controllerCrash m, s => (.error (.pyExc m), s)

/-- A `try`/`finally`: run the body, then run the cleanup on the
resulting state no matter how the body ended, re-raising the body's
exception. -/
def tryFinally (body : CState → Except CtrlErr Unit × CState)
    (fin : CState → CState) (s : CState) : Except CtrlErr Unit × CState :=
  match body s with
  | (r, s2) => (r, fin s2)

/-- The controller from the point the ephemeral workspace exists: the
`try` block wrapped in the `finally` whose
`shutil.rmtree(tmpdir, ignore_errors=True)` removes the workspace. -/
def controllerMain (b : ChildBehavior) : Except CtrlErr Unit × CState :=
  tryFinally (controllerBody b) (fun s => { s with workspaceExists := false })
    { workspaceExists := true, childKilled := false }

/-- The process exit code the controller's termination produces: the
code carried by `SystemExit`, or the interpreter's code `1` for an
uncaught exception. -/
def controllerExitCode (b : ChildBehavior) : Nat :=
  match (controllerMain b).1 with
  | .error (.sysExit c) => c
  | .error (.pyExc _) => 1
  | .ok _ => 0

/-! ### Stream relay (`sandbox.py` printing the child's streams) -/

/-- The whitespace characters Python's `str.rstrip()` strips. -/
def isPyWs (c : Char) : Bool :=
  c = ' ' || c = '\t' || c = '\n' || c = '\r' || c = '\x0b' || c = '\x0c'

/-- Python's `s.rstrip()`: drop trailing whitespace characters. -/
def pyRstrip (s : String) : String :=
  ⟨(s.data.reverse.dropWhile isPyWs).reverse⟩

/-- The labeled section the controller emits for one captured child
stream: nothing when the stream is empty (`if proc.stdout:`), else the
label line followed by `proc.stdout.rstrip()` and the newline `print`
appends. -/
def relaySection (label s : String) : Option String :=
  if s = "" then none
  else some (label ++ "\n" ++ pyRstrip s ++ "\n")

/-- The section written to the controller's standard output for the
child's captured standard output. -/
def relayStdout (s : String) : Option String :=
  relaySection "--- child stdout ---" s

/-- The section written to the controller's standard error for the
child's captured standard error. -/
def relayStderr (s : String) : Option String :=
  relaySection "--- child stderr ---" s

/-- Modelled from the spec's words, for comparison: a verbatim relay
would reproduce the captured stream byte-for-byte after the label. -/
def verbatimSection (label s : String) : Option String :=
  if s = "" then none else some (label ++ "\n" ++ s)

/-! ### Working directory change (`child_runner.main` before
`run_target`) -/

/-- The scratch directory `os.path.abspath(os.path.join("/tmp",
"sandbox_child"))`. -/
def SCRATCH_DIR : String := "/tmp/sandbox_child"

/-- A minimal filesystem view for the engine's pre-execution steps. -/
structure EngineFs where
  dirs : List String
  cwd : String

/-- The name `tempfile.mkdtemp(prefix="runsandbox_")` gives the
controller's ephemeral workspace: the system temporary root, the
prefix, and a fresh suffix. -/
def mkdtempName (root suffix : String) : String :=
  root ++ "/runsandbox_" ++ suffix

/-- The effect of `os.makedirs(tmp, exist_ok=True)`. -/
def makedirs (p : String) (st : EngineFs) : EngineFs :=
  { st with dirs := p :: st.dirs }

/-- The effect of `os.chdir(p)`: succeeds only when the directory
already exists. -/
def chdir (p : String) (st : EngineFs) : Option EngineFs :=
  if st.dirs.contains p then some { st with cwd := p } else none

/-- The engine's working-directory step: create the scratch directory
if needed, then change into it (the surrounding `try`/`except` leaves
the state unchanged if `chdir` fails). -/
def engineChdirStep (st : EngineFs) : EngineFs :=
  match chdir SCRATCH_DIR (makedirs SCRATCH_DIR st) with
  | some st2 => st2
  | none => st

/-- A concrete well-formed injected dataset of two named tables, for
evaluating the injection pipeline. -/
def sampleTables : List (String × Table) :=
  [("Sheet1", { columns := ["month", "amount"],
                data := [["Jan", "10"], ["Feb", "20"]] }),
   ("Sheet2", { columns := ["name"], data := [["x"]] })]

/-- The ephemeral workspace the controller prepares for a target
script plus the sample dataset. -/
def sampleWorkspace : List (String × FileContent) :=
  controllerPrepare "script.py" "result = dfs" (some (.dataset sampleTables))

/-! ## Theorems -/

/-- C1: the controller copies an injected dataset into the workspace
under the name `injected_dfs.pkl`, but the restriction engine looks
for `injected_dfs.json`; on a concrete well-formed two-table dataset
the engine therefore loads nothing and the untrusted script never
receives the `dfs` binding, contradicting the claim that the dataset
is copied under the name the engine expects and observed by the
script. -/
theorem c1_dataset_name_mismatch :
    lookupFile sampleWorkspace "injected_dfs.pkl" =
      some (.dataset sampleTables) ∧
    lookupFile sampleWorkspace ENGINE_INJECT_NAME = none ∧
    loadInjectedDfs sampleWorkspace = none ∧
    restrictedGlobalsHasDfs sampleWorkspace = false := by
  refine ⟨?_, ?_, ?_, ?_⟩ <;> decide

/-- C4: the restriction engine's outcome classification, in the
source order of the `except` chain: natural completion exits 0 with no
diagnostic, a `MemoryError` exits 137, the alarm handler's
`TimeoutError` exits 124, and any other unhandled failure (one that is
not a `MemoryError`, `TimeoutError` or `SystemExit`) exits 1; each
non-success case writes a diagnostic line to standard error. -/
theorem c4_outcome_classification :
    runnerExit .completes = (0, none) ∧
    (∀ m : String, runnerExit (.raises { cls := .memoryError, msg := m }) =
      (137, some "child: killed (memory limit reached)")) ∧
    runnerExit (.raises alarm_handler_exc) =
      (124, some "child: killed (timeout)") ∧
    (∀ e : PyExcVal, subclassOf e.cls .memoryError = false →
      subclassOf e.cls .timeoutError = false →
      subclassOf e.cls .systemExit = false →
      runnerExit (.raises e) =
        (1, some ("child: runtime error: " ++ pyRepr e))) := by
  refine ⟨rfl, fun m => rfl, rfl, ?_⟩
  intro e h1 h2 h3
  simp [runnerExit, h1, h2, h3]

/-- Witness for C4: a concrete generic failure (a `RuntimeError`)
satisfies the hypotheses and exits 1 with its diagnostic. -/
theorem c4_outcome_classification_witness :
    runnerExit (.raises { cls := .runtimeError, msg := "boom" }) =
      (1, some "child: runtime error: RuntimeError('boom')") :=
  c4_outcome_classification.2.2.2
    { cls := .runtimeError, msg := "boom" } rfl rfl rfl

/-- C5: the import substitute raises an `ImportError` naming the
module when the root name is outside `ALLOWED_MODULES` (and that
error, propagating unhandled, terminates the run with exit code 1 and
a diagnostic carrying the rejection message), delegates to genuine
module loading when the root name is allowed, and — being a pure
function of the requested name, with no state — behaves identically on
repeated imports within one run. -/
theorem c5_import_gate (name : String) :
    (ALLOWED_MODULES.contains (rootName name) = false →
      restricted_import name =
        .error { cls := .importError,
                 msg := "import of '" ++ name ++ "' not allowed in sandbox" } ∧
      runnerExit (.raises
          { cls := .importError,
            msg := "import of '" ++ name ++ "' not allowed in sandbox" }) =
        (1, some ("child: runtime error: " ++ pyRepr
          { cls := .importError,
            msg := "import of '" ++ name ++ "' not allowed in sandbox",
            code := 0 }))) ∧
    (ALLOWED_MODULES.contains (rootName name) = true →
      restricted_import name = .ok (.genuine name)) ∧
    restricted_import name = restricted_import name := by
  refine ⟨?_, ?_, rfl⟩
  · intro h
    refine ⟨?_, rfl⟩
    unfold restricted_import
    rw [h]
    rfl
  · intro h
    unfold restricted_import
    rw [h]
    rfl

/-- Witness for C5: `os` (outside the allow-list) is rejected while
`math` (inside it) loads genuinely. -/
theorem c5_import_gate_witness :
    restricted_import "os" =
      .error { cls := .importError,
               msg := "import of 'os' not allowed in sandbox" } ∧
    restricted_import "math" = .ok (.genuine "math") :=
  ⟨((c5_import_gate "os").1 (by decide)).1,
   (c5_import_gate "math").2.1 (by decide)⟩

/-- C6: when the child terminates within the supervision window the
controller's exit code equals the child's return code (0 when the
return code is reported as `None`), and the child is not killed; when
the window elapses the child is forcibly killed and the controller
exits with 124. -/
theorem c6_controller_exit_code :
    (∀ c, controllerExitCode (.completed (some c)) = c) ∧
    controllerExitCode (.completed none) = 0 ∧
    controllerExitCode .timedOut = 124 ∧
    (controllerMain .timedOut).2.childKilled = true ∧
    (∀ rc, (controllerMain (.completed rc)).2.childKilled = false) :=
  ⟨fun _ => rfl, rfl, rfl, rfl, fun _ => rfl⟩

/-- C7: on every path of the controller after the ephemeral workspace
exists — child completion with any code, supervision timeout, or an
exception inside the controller itself — the `finally` cleanup leaves
the workspace removed. -/
theorem c7_workspace_cleanup (b : ChildBehavior) :
    (controllerMain b).2.workspaceExists = false := by
  cases b <;> rfl

/-- C10: the substitute primitives raise `PermissionError` and
`ImportError`, both subclasses of the `Exception` the restricted
builtins expose, while the names `PermissionError` and `ImportError`
themselves are not bound there; hence a script that wraps a blocked
file open or a disallowed import in a handler catching `Exception`
swallows the policy violation and the run still exits 0 with no
diagnostic. -/
theorem c10_exception_catchability :
    safeBuiltinNames.contains "PermissionError" = false ∧
    safeBuiltinNames.contains "ImportError" = false ∧
    safeBuiltinNames.contains "Exception" = true ∧
    blocked_open =
      .error { cls := .permissionError,
               msg := "file IO is disabled in sandbox" } ∧
    subclassOf .permissionError .exception = true ∧
    subclassOf .importError .exception = true ∧
    runnerExit (scriptOutcomeOf (handleCatching .exception blocked_open)) =
      (0, none) ∧
    runnerExit (scriptOutcomeOf (handleCatching .exception
      (Except.map (fun _ => ()) (restricted_import "os")))) = (0, none) :=
  ⟨rfl, rfl, rfl, rfl, rfl, rfl, rfl, rfl⟩

/-- C2, counterexample: `socket.socket` is a class of the original
module, yet the substitute binds it to the raising replacement, so not
every class is preserved; and `gethostbyname_ex` is an operation that
resolves a name, yet the substitute leaves the original in place and
calling it does not fail, so not every such operation is replaced. -/
theorem c2_counterexample :
    realSocketAttrs.lookup "socket" = some .cls ∧
    fakeSocketLookup "socket" = some .raiseNetDisabled ∧
    fakeSocketLookup "socket" ≠ some (.orig "socket" "socket") ∧
    specSocketNetOps.contains "gethostbyname_ex" = true ∧
    fakeSocketLookup "gethostbyname_ex" =
      some (.orig "socket" "gethostbyname_ex") ∧
    invoke (.orig "socket" "gethostbyname_ex") = .ok () := by
  refine ⟨?_, ?_, ?_, ?_, ?_, ?_⟩ <;> first | rfl | decide

/-- C2, amended: the substitute `socket` module preserves every
attribute of the original except the six names in
`blockedSocketFuncs`, each of which is replaced by an operation that
unconditionally raises the networking-disabled error; the substitute
`ssl` module preserves every attribute except `wrap_socket` (replaced
by an operation raising the ssl-disabled error) and
`create_default_context` (replaced by a stub returning a fresh
TLS-client context). -/
theorem c2_substitute_modules (a : String) :
    (realSocketAttrNames.contains a = true →
      blockedSocketFuncs.contains a = false →
      fakeSocketLookup a = some (.orig "socket" a)) ∧
    (blockedSocketFuncs.contains a = true →
      fakeSocketLookup a = some .raiseNetDisabled) ∧
    (realSslAttrNames.contains a = true → a ≠ "wrap_socket" →
      a ≠ "create_default_context" →
      fakeSslLookup a = some (.orig "ssl" a)) ∧
    fakeSslLookup "wrap_socket" = some .raiseSslDisabled ∧
    fakeSslLookup "create_default_context" = some .sslDefaultContextStub ∧
    invoke .raiseNetDisabled =
      .error { cls := .runtimeError,
               msg := "networking disabled in sandbox" } ∧
    invoke .raiseSslDisabled =
      .error { cls := .runtimeError, msg := "ssl disabled" } := by
  refine ⟨?_, ?_, ?_, rfl, rfl, rfl, rfl⟩
  · intro h1 h2
    have h1m : a ∈ realSocketAttrNames := by simpa using h1
    have h2m : a ∉ blockedSocketFuncs := by simpa using h2
    simp [fakeSocketLookup, h1m, h2m]
  · intro h
    have hm : a ∈ blockedSocketFuncs := by
      simpa using h
    fin_cases hm <;> rfl
  · intro h1 h2 h3
    have h1m : a ∈ realSslAttrNames := by simpa using h1
    simp [fakeSslLookup, h1m, h2, h3]

/-- Witness for C2's amended theorem: a preserved socket constant, a
blocked socket function, and a preserved ssl constant. -/
theorem c2_substitute_modules_witness :
    fakeSocketLookup "AF_INET" = some (.orig "socket" "AF_INET") ∧
    fakeSocketLookup "create_connection" = some .raiseNetDisabled ∧
    fakeSslLookup "PROTOCOL_TLS_CLIENT" =
      some (.orig "ssl" "PROTOCOL_TLS_CLIENT") :=
  ⟨(c2_substitute_modules "AF_INET").1 (by decide) (by decide),
   (c2_substitute_modules "create_connection").2.1 (by decide),
   (c2_substitute_modules "PROTOCOL_TLS_CLIENT").2.2.1 (by decide)
     (by decide) (by decide)⟩

/-- C3, counterexample: the networking modules are outside the import
allow-list, so a script that merely tries to reference a constant or
class from `socket` or `ssl` cannot import them at all — the import
substitute raises an import-rejected error instead of returning the
original value. -/
theorem c3_counterexample :
    ALLOWED_MODULES.contains "socket" = false ∧
    ALLOWED_MODULES.contains "ssl" = false ∧
    restricted_import "socket" =
      .error { cls := .importError,
               msg := "import of 'socket' not allowed in sandbox" } ∧
    (∀ m : LoadedModule, restricted_import "socket" ≠ .ok m) := by
  refine ⟨rfl, rfl, rfl, ?_⟩
  intro m h
  exact absurd h (by simp [restricted_import, rootName, ALLOWED_MODULES])

/-- C3, amended: a script's attempt to reach the networking modules by
`import` fails with the import-rejected error (so connection attempts
and constant references from inside the script both fail there); at
the level of the substituted process-wide modules, a blocked operation
such as `create_connection` raises the networking-disabled error while
a preserved constant or class such as `socket.AF_INET` or
`ssl.SSLContext` is still the original value. -/
theorem c3_network_access :
    restricted_import "socket" =
      .error { cls := .importError,
               msg := "import of 'socket' not allowed in sandbox" } ∧
    restricted_import "ssl" =
      .error { cls := .importError,
               msg := "import of 'ssl' not allowed in sandbox" } ∧
    fakeSocketLookup "create_connection" = some .raiseNetDisabled ∧
    invoke .raiseNetDisabled =
      .error { cls := .runtimeError,
               msg := "networking disabled in sandbox" } ∧
    fakeSocketLookup "AF_INET" = some (.orig "socket" "AF_INET") ∧
    fakeSslLookup "SSLContext" = some (.orig "ssl" "SSLContext") := by
  refine ⟨rfl, rfl, ?_, rfl, ?_, ?_⟩ <;> rfl

/-- C8, counterexample: the controller's relay is not verbatim — on
the captured stream `"hi \n"` it emits the text with the trailing
whitespace stripped, differing from a byte-for-byte reproduction, and
on an empty captured stream it emits no section at all. -/
theorem c8_counterexample :
    relayStdout "hi \n" = some "--- child stdout ---\nhi\n" ∧
    verbatimSection "--- child stdout ---" "hi \n" =
      some "--- child stdout ---\nhi \n" ∧
    relayStdout "hi \n" ≠ verbatimSection "--- child stdout ---" "hi \n" ∧
    relayStdout "" = none := by
  refine ⟨?_, ?_, ?_, ?_⟩ <;> decide

/-- C8, amended: for each nonempty captured child stream the
controller writes one labeled section whose body is the stream with
its trailing whitespace removed and a final newline appended — the
dropped characters are all whitespace and the kept text is an initial
segment of the stream, so nothing else is altered; an empty stream
produces no section. -/
theorem c8_relay_rstrip (label s : String) (h : s ≠ "") :
    ∃ dropped : String,
      (∀ c ∈ dropped.data, isPyWs c = true) ∧
      s = pyRstrip s ++ dropped ∧
      relaySection label s = some (label ++ "\n" ++ pyRstrip s ++ "\n") := by
  refine ⟨⟨(s.data.reverse.takeWhile isPyWs).reverse⟩, ?_, ?_, ?_⟩
  · intro c hc
    have hc2 : c ∈ s.data.reverse.takeWhile isPyWs := by
      simpa using hc
    exact List.mem_takeWhile_imp hc2
  · have hdata : s.data =
        (s.data.reverse.dropWhile isPyWs).reverse ++
          (s.data.reverse.takeWhile isPyWs).reverse := by
      conv_lhs => rw [← s.data.reverse_reverse]
      conv_lhs =>
        rw [← List.takeWhile_append_dropWhile (p := isPyWs)
          (l := s.data.reverse)]
      rw [List.reverse_append]
    exact congrArg String.mk hdata
  · simp [relaySection, h]

/-- Witness for C8's amended theorem at the concrete stream
`"hi \n"`. -/
theorem c8_relay_rstrip_witness :
    ∃ dropped : String,
      (∀ c ∈ dropped.data, isPyWs c = true) ∧
      "hi \n" = pyRstrip "hi \n" ++ dropped ∧
      relaySection "--- child stdout ---" "hi \n" =
        some ("--- child stdout ---" ++ "\n" ++ pyRstrip "hi \n" ++ "\n") :=
  c8_relay_rstrip "--- child stdout ---" "hi \n" (by decide)

/-- The controller's workspace name never coincides with the engine's
scratch directory: the scratch path contains no letter `r`, while
every `mkdtemp`-produced workspace name contains the prefix
`runsandbox_`. -/
theorem mkdtempName_ne_scratch (root suffix : String) :
    mkdtempName root suffix ≠ SCRATCH_DIR := by
  intro h
  have hd : (mkdtempName root suffix).data = SCRATCH_DIR.data :=
    congrArg String.data h
  have hab : ∀ a b : String, (a ++ b).data = a.data ++ b.data :=
    fun _ _ => rfl
  rw [mkdtempName, hab, hab] at hd
  have hr : 'r' ∈ (root.data ++ "/runsandbox_".data) ++ suffix.data := by
    refine List.mem_append_left _ (List.mem_append_right _ ?_)
    decide
  rw [hd] at hr
  exact absurd hr (by decide)

/-- C9: the engine's pre-execution step ensures the scratch directory
exists, then changes the working directory into it, so that when the
untrusted script starts the current directory is the scratch directory
— which exists at the moment of the change and is distinct from every
workspace directory the controller can have created. -/
theorem c9_scratch_directory (st : EngineFs) (root suffix : String) :
    (engineChdirStep st).cwd = SCRATCH_DIR ∧
    (makedirs SCRATCH_DIR st).dirs.contains SCRATCH_DIR = true ∧
    chdir SCRATCH_DIR (makedirs SCRATCH_DIR st) =
      some { makedirs SCRATCH_DIR st with cwd := SCRATCH_DIR } ∧
    (engineChdirStep st).cwd ≠ mkdtempName root suffix := by
  have hcontains : (makedirs SCRATCH_DIR st).dirs.contains SCRATCH_DIR
      = true := by
    simp [makedirs]
  have hmem : SCRATCH_DIR ∈ (makedirs SCRATCH_DIR st).dirs := by
    simp [makedirs]
  have hchdir : chdir SCRATCH_DIR (makedirs SCRATCH_DIR st) =
      some { makedirs SCRATCH_DIR st with cwd := SCRATCH_DIR } := by
    simp [chdir, hmem]
  have hcwd : (engineChdirStep st).cwd = SCRATCH_DIR := by
    rw [engineChdirStep, hchdir]
  refine ⟨hcwd, hcontains, hchdir, ?_⟩
  rw [hcwd]
  exact fun h => mkdtempName_ne_scratch root suffix h.symm

end Sandbox
